import Mathlib

/-!
Verification of `aix360/datasets/sunspots_dataset.py`.

The source file defines a class `SunspotDataset` with a no-argument
constructor that resolves two path strings with `os.path` functions, and a
method `load_data` that reads a CSV file with `pandas.read_csv(path,
header=0)`, positionally relabels the columns to `["month", "sunspots"]`,
and returns the dataframe together with a literal metadata dictionary.

Embedding choices:
- A file system is a map from path strings to an optional CSV content,
  where the content is the list of tokenised rows (each row a list of
  cell strings).  `none` models a missing file.
- `pd.read_csv(path, header=0)` is embedded by `readCsv`: the first row
  becomes the column labels, the remaining rows become the data; an empty
  file raises `EmptyDataError`; a data row with more fields than the
  header raises a tokenizing `ParserError`; a data row with fewer fields
  is padded with `"NaN"` cells.
- `df.columns = [...]` is embedded by `setColumns`, which raises a
  length-mismatch `ValueError` when the new label list does not have the
  same length as the existing column list.
- `os.path.realpath` depends on the symlink state of the machine, so it
  is passed as an oracle `rp : String → String`; `os.path.dirname` and
  `os.path.join` are implemented concretely following the POSIX rules.
- The Python method can in principle mutate `self`; `load_data_step`
  returns the post-state of the receiver alongside the result, which the
  source body (which never assigns to `self` or to any global) leaves
  equal to the pre-state.
-/

set_option autoImplicit false

/-- Errors surfaced by the underlying file-read / parse / relabel steps
(`FileNotFoundError`, `pandas.errors.EmptyDataError`,
`pandas.errors.ParserError`, and the `ValueError` from a column-length
mismatch). -/
inductive LoadError where
  | fileNotFound
  | emptyData
  | parserError (expected : Nat) (saw : Nat)
  | lengthMismatch (axisLen : Nat) (newLen : Nat)
  deriving DecidableEq, Repr

/-- An in-memory tabular structure: named columns and ordered rows of
cell strings (the shape `pandas.read_csv` produces at the level of
fidelity these claims need). -/
structure DataFrame where
  columns : List String
  rows : List (List String)
  deriving DecidableEq, Repr

/-- CSV content at the token level: the list of rows, each a list of cell
strings.  The first row is the header row. -/
abbrev CsvContent := List (List String)

/-- A file system state: for each path, `some content` when a readable
CSV file is present there, `none` when it is absent. -/
abbrev FileSystem := String → Option CsvContent

/-- `pd.read_csv(path, header=0)` on already-tokenised content: first row
is the header (column labels), remaining rows are data; empty input is
`EmptyDataError`; a data row longer than the header is a tokenizing
`ParserError`; shorter rows are padded with `"NaN"`. -/
def readCsv (content : CsvContent) : Except LoadError DataFrame :=
  match content with
  | [] => Except.error LoadError.emptyData
  | header :: dataRows =>
    match dataRows.find? (fun r => decide (header.length < r.length)) with
    | some r => Except.error (LoadError.parserError header.length r.length)
    | none =>
      Except.ok
        { columns := header
          rows := dataRows.map
            (fun r => r ++ List.replicate (header.length - r.length) "NaN") }

/-- `df.columns = newCols`: pandas raises a `ValueError` ("Length
mismatch") when the new label list does not match the existing number of
columns; otherwise it replaces the labels and keeps the rows. -/
def setColumns (df : DataFrame) (newCols : List String) :
    Except LoadError DataFrame :=
  if df.columns.length = newCols.length then
    Except.ok { df with columns := newCols }
  else
    Except.error (LoadError.lengthMismatch df.columns.length newCols.length)

/-- A value stored in the schema dictionary: the source stores strings
and lists of strings. -/
inductive SchemaValue where
  | str (s : String)
  | strList (l : List String)
  deriving DecidableEq, Repr

/-- The schema dictionary, in insertion order. -/
abbrev Schema := List (String × SchemaValue)

/-- POSIX `os.path.dirname`: everything up to the last slash, with
trailing slashes stripped unless the head is all slashes. -/
def dirname (p : String) : String :=
  let head := (p.toList.reverse.dropWhile (fun c => c ≠ '/')).reverse
  if head.all (fun c => c = '/') then String.mk head
  else String.mk ((head.reverse.dropWhile (fun c => c = '/')).reverse)

/-- Whether string `s` starts with `pre`, computed on the character
lists so that the kernel can evaluate it. -/
def strStartsWith (s pre : String) : Bool :=
  pre.toList.isPrefixOf s.toList

/-- Whether string `s` ends with `suf`, computed on the character lists
so that the kernel can evaluate it. -/
def strEndsWith (s suf : String) : Bool :=
  suf.toList.reverse.isPrefixOf s.toList.reverse

/-- POSIX `os.path.join` for two components. -/
def joinPath (a b : String) : String :=
  if strStartsWith b "/" then b
  else if a = "" ∨ strEndsWith a "/" then a ++ b
  else a ++ "/" ++ b

/-- The loader object: the two path strings computed by `__init__`. -/
structure SunspotDataset where
  data_folder : String
  data_file : String
  deriving DecidableEq, Repr

/-- `SunspotDataset.__init__`: `rp` is the `os.path.realpath` oracle and
`moduleFile` is the Python `__file__` of the module.  It computes
`data_folder = realpath(join(dirname(realpath(__file__)), "../data",
"sunspots_data"))` and `data_file = realpath(join(data_folder,
"sunspots.csv"))`, and touches nothing else. -/
def SunspotDataset.init (rp : String → String) (moduleFile : String) :
    SunspotDataset :=
  let data_folder :=
    rp (joinPath (joinPath (dirname (rp moduleFile)) "../data") "sunspots_data")
  { data_folder := data_folder
    data_file := rp (joinPath data_folder "sunspots.csv") }

/-- `SunspotDataset.load_data`: read the CSV at `self.data_file`,
relabel the columns to `["month", "sunspots"]`, build the schema
dictionary literal, and return the pair.  Any error from the read, the
parse, or the relabel propagates unmodified. -/
def load_data (self : SunspotDataset) (fs : FileSystem) :
    Except LoadError (DataFrame × Schema) :=
  match fs self.data_file with
  | none => Except.error LoadError.fileNotFound
  | some content =>
    match readCsv content with
    | Except.error e => Except.error e
    | Except.ok df0 =>
      match setColumns df0 ["month", "sunspots"] with
      | Except.error e => Except.error e
      | Except.ok df =>
        let schema : Schema :=
          [("name", SchemaValue.str "sunspots"),
           ("description", SchemaValue.str
             "monthly count of the number of observed sunspots for just over 230 years (1749-1983)"),
           ("timestamp", SchemaValue.str "month"),
           ("targets", SchemaValue.strList ["sunspots"]),
           ("frequency", SchemaValue.str "M"),
           ("external_regressors", SchemaValue.strList [])]
        Except.ok (df, schema)

/-- The method call with its post-state: the source body of `load_data`
never assigns to `self` or to any module-level name, so the receiver
after the call is the receiver before it. -/
def load_data_step (self : SunspotDataset) (fs : FileSystem) :
    Except LoadError (DataFrame × Schema) × SunspotDataset :=
  (load_data self fs, self)

/-- The fixed metadata record of spec section 6, written out
independently of `load_data` so that agreement is a theorem and not a
definition. -/
def specSchemaLiteral : Schema :=
  [("name", SchemaValue.str "sunspots"),
   ("description", SchemaValue.str
     "monthly count of the number of observed sunspots for just over 230 years (1749-1983)"),
   ("timestamp", SchemaValue.str "month"),
   ("targets", SchemaValue.strList ["sunspots"]),
   ("frequency", SchemaValue.str "M"),
   ("external_regressors", SchemaValue.strList [])]

/-- Fixture: a loader whose resolved data file is `/d/sunspots.csv`. -/
def wDS : SunspotDataset :=
  { data_folder := "/d", data_file := "/d/sunspots.csv" }

/-- Fixture: the 3-row example CSV of spec section 8, with header
`Year,Count`. -/
def wContent : CsvContent :=
  [["Year", "Count"], ["1749", "58"], ["1750", "62.6"], ["1751", "70"]]

/-- Fixture: a file system holding `wContent` at `/d/sunspots.csv` and
nothing else. -/
def wFS : FileSystem :=
  fun p => if p = "/d/sunspots.csv" then some wContent else none

/-- Fixture: the dataframe `readCsv` produces from `wContent`. -/
def wRawDF : DataFrame :=
  { columns := ["Year", "Count"]
    rows := [["1749", "58"], ["1750", "62.6"], ["1751", "70"]] }

/-- Fixture: a malformed three-column CSV content. -/
def w3Content : CsvContent :=
  [["a", "b", "c"], ["1", "2", "3"]]

/-- Fixture: a file system holding the three-column content at
`/d/sunspots.csv`. -/
def w3FS : FileSystem :=
  fun p => if p = "/d/sunspots.csv" then some w3Content else none

/-- Fixture: the dataframe `readCsv` produces from `w3Content`. -/
def w3RawDF : DataFrame :=
  { columns := ["a", "b", "c"], rows := [["1", "2", "3"]] }

/-- Fixture: a file system with no files at all. -/
def wEmptyFS : FileSystem := fun _ => none

theorem setColumns_of_length_eq (df : DataFrame) (newCols : List String)
    (h : df.columns.length = newCols.length) :
    setColumns df newCols = Except.ok { df with columns := newCols } := by
  unfold setColumns
  rw [if_pos h]

theorem setColumns_of_length_ne (df : DataFrame) (newCols : List String)
    (h : df.columns.length ≠ newCols.length) :
    setColumns df newCols =
      Except.error (LoadError.lengthMismatch df.columns.length newCols.length) := by
  unfold setColumns
  rw [if_neg h]

theorem load_data_ok_of_two_columns (self : SunspotDataset) (fs : FileSystem)
    (content : CsvContent) (df0 : DataFrame)
    (hfs : fs self.data_file = some content)
    (hr : readCsv content = Except.ok df0)
    (hlen : df0.columns.length = 2) :
    load_data self fs =
      Except.ok ({ columns := ["month", "sunspots"], rows := df0.rows },
        specSchemaLiteral) := by
  have hset := setColumns_of_length_eq df0 ["month", "sunspots"] (by simpa using hlen)
  unfold load_data
  simp only [hfs, hr, hset]
  rfl

/-- Claim C1: whenever `load_data` returns successfully, the metadata
mapping it returns is exactly the fixed literal record of spec section 6,
independent of the file content. -/
theorem load_data_metadata_literal (self : SunspotDataset) (fs : FileSystem)
    (df : DataFrame) (schema : Schema)
    (h : load_data self fs = Except.ok (df, schema)) :
    schema = specSchemaLiteral := by
  unfold load_data at h
  split at h
  · exact Except.noConfusion h
  · split at h
    · exact Except.noConfusion h
    · split at h
      · exact Except.noConfusion h
      · simp only [Except.ok.injEq, Prod.mk.injEq] at h
        exact h.2.symm

/-- Claim C1 witness: a successful concrete run whose returned schema is
the literal record. -/
theorem load_data_metadata_literal_witness :
    load_data wDS wFS =
      Except.ok ({ columns := ["month", "sunspots"], rows := wRawDF.rows },
        specSchemaLiteral) ∧
    specSchemaLiteral = specSchemaLiteral :=
  ⟨by rfl,
   load_data_metadata_literal wDS wFS
     { columns := ["month", "sunspots"], rows := wRawDF.rows }
     specSchemaLiteral (by rfl)⟩

/-- Claim C2: for every CSV file whose parse yields a two-column table,
`load_data` discards the header row and assigns the labels `month` and
`sunspots` positionally to the two parsed columns, keeping the data rows,
regardless of what the original header contained. -/
theorem load_data_relabels_positionally (self : SunspotDataset)
    (fs : FileSystem) (content : CsvContent) (df0 : DataFrame)
    (hfs : fs self.data_file = some content)
    (hr : readCsv content = Except.ok df0)
    (hlen : df0.columns.length = 2) :
    load_data self fs =
      Except.ok ({ columns := ["month", "sunspots"], rows := df0.rows },
        specSchemaLiteral) :=
  load_data_ok_of_two_columns self fs content df0 hfs hr hlen

/-- Claim C2 witness: the header `Year,Count` is replaced by
`month, sunspots` on a concrete two-column file. -/
theorem load_data_relabels_positionally_witness :
    wFS wDS.data_file = some wContent ∧
    readCsv wContent = Except.ok wRawDF ∧
    wRawDF.columns.length = 2 ∧
    load_data wDS wFS =
      Except.ok ({ columns := ["month", "sunspots"], rows := wRawDF.rows },
        specSchemaLiteral) :=
  ⟨by rfl, by rfl, by rfl,
   load_data_relabels_positionally wDS wFS wContent wRawDF
     (by rfl) (by rfl) (by rfl)⟩

/-- Claim C3: when the parse yields a table whose column count is not
two, `load_data` propagates the length-mismatch error from the column
assignment and returns no table. -/
theorem load_data_wrong_column_count (self : SunspotDataset)
    (fs : FileSystem) (content : CsvContent) (df0 : DataFrame)
    (hfs : fs self.data_file = some content)
    (hr : readCsv content = Except.ok df0)
    (hlen : df0.columns.length ≠ 2) :
    load_data self fs =
      Except.error (LoadError.lengthMismatch df0.columns.length 2) := by
  have hset := setColumns_of_length_ne df0 ["month", "sunspots"] (by simpa using hlen)
  unfold load_data
  simp only [hfs, hr, hset]
  rfl

/-- Claim C3 witness: a concrete three-column file makes `load_data`
return the length-mismatch error. -/
theorem load_data_wrong_column_count_witness :
    w3FS wDS.data_file = some w3Content ∧
    readCsv w3Content = Except.ok w3RawDF ∧
    w3RawDF.columns.length ≠ 2 ∧
    load_data wDS w3FS =
      Except.error (LoadError.lengthMismatch w3RawDF.columns.length 2) :=
  ⟨by rfl, by rfl, by decide,
   load_data_wrong_column_count wDS w3FS w3Content w3RawDF
     (by rfl) (by rfl) (by decide)⟩

/-- Claim C4: two successive calls on the same loader with the file
unchanged return the same result, the second call starting from the
post-state of the first. -/
theorem load_data_step_idempotent (self : SunspotDataset) (fs : FileSystem) :
    (load_data_step self fs).1 =
      (load_data_step (load_data_step self fs).2 fs).1 := rfl

/-- Claim C5: when the resolved data file is absent, `load_data` returns
the file-not-found error and no table or metadata. -/
theorem load_data_missing_file (self : SunspotDataset) (fs : FileSystem)
    (hfs : fs self.data_file = none) :
    load_data self fs = Except.error LoadError.fileNotFound := by
  unfold load_data
  rw [hfs]

/-- Claim C5 witness: a concrete loader over an empty file system. -/
theorem load_data_missing_file_witness :
    wEmptyFS wDS.data_file = none ∧
    load_data wDS wEmptyFS = Except.error LoadError.fileNotFound :=
  ⟨by rfl, load_data_missing_file wDS wEmptyFS (by rfl)⟩

/-- Claim C6: for every well-formed two-column CSV with one header row,
the returned table has columns exactly `["month", "sunspots"]`, its rows
are exactly the data rows of the file (header excluded), in file order. -/
theorem load_data_wellformed_two_columns (self : SunspotDataset)
    (fs : FileSystem) (header : List String) (rows : List (List String))
    (hfs : fs self.data_file = some (header :: rows))
    (hhead : header.length = 2)
    (hrows : ∀ r ∈ rows, r.length = 2) :
    load_data self fs =
      Except.ok ({ columns := ["month", "sunspots"], rows := rows },
        specSchemaLiteral) := by
  have hfind : rows.find? (fun r => decide (header.length < r.length)) = none := by
    rw [List.find?_eq_none]
    intro r hr
    simp [hrows r hr, hhead]
  have hmap : rows.map
      (fun r => r ++ List.replicate (header.length - r.length) "NaN") = rows := by
    have hid : ∀ r ∈ rows, r ++ List.replicate (header.length - r.length) "NaN" = r := by
      intro r hr
      rw [hrows r hr, hhead]
      simp
    calc rows.map (fun r => r ++ List.replicate (header.length - r.length) "NaN")
        = rows.map id := List.map_congr_left hid
      _ = rows := List.map_id rows
  have hread : readCsv (header :: rows) =
      Except.ok { columns := header, rows := rows } := by
    simp only [readCsv, hfind, hmap]
  exact load_data_ok_of_two_columns self fs (header :: rows)
    { columns := header, rows := rows } hfs hread hhead

/-- Claim C6 witness: the concrete two-column file has its three data
rows returned in order under the relabelled columns. -/
theorem load_data_wellformed_two_columns_witness :
    wFS wDS.data_file = some (["Year", "Count"] :: wRawDF.rows) ∧
    (["Year", "Count"] : List String).length = 2 ∧
    (∀ r ∈ wRawDF.rows, r.length = 2) ∧
    load_data wDS wFS =
      Except.ok ({ columns := ["month", "sunspots"], rows := wRawDF.rows },
        specSchemaLiteral) :=
  ⟨by rfl, by rfl, by decide,
   load_data_wellformed_two_columns wDS wFS ["Year", "Count"] wRawDF.rows
     (by rfl) (by rfl) (by decide)⟩

/-- Claim C7: the 3-row example of spec section 8 — header `Year,Count`,
rows `(1749,58)`, `(1750,62.6)`, `(1751,70)` — loads to the table with
columns `month`, `sunspots` and the same three rows in order; the
fractional value `62.6` is accepted. -/
theorem load_data_example_three_rows :
    load_data wDS wFS =
      Except.ok
        ({ columns := ["month", "sunspots"]
           rows := [["1749", "58"], ["1750", "62.6"], ["1751", "70"]] },
         specSchemaLiteral) := by rfl

/-- Claim C8: for every realpath oracle, module location, and
file-system state, construction succeeds and produces exactly the two
canonically resolved path strings; the file-system content map `fs` is
never consulted. -/
theorem init_total_and_pure (rp : String → String) (moduleFile : String)
    (fs : FileSystem) :
    SunspotDataset.init rp moduleFile =
      { data_folder :=
          rp (joinPath (joinPath (dirname (rp moduleFile)) "../data")
            "sunspots_data")
        data_file :=
          rp (joinPath
            (rp (joinPath (joinPath (dirname (rp moduleFile)) "../data")
              "sunspots_data"))
            "sunspots.csv") } := rfl

/-- Claim C9: `load_data` leaves the receiver untouched: `data_folder`
and `data_file` are identical before and after every call, whether the
call succeeds or errors. -/
theorem load_data_step_frame (self : SunspotDataset) (fs : FileSystem) :
    (load_data_step self fs).2.data_folder = self.data_folder ∧
    (load_data_step self fs).2.data_file = self.data_file := ⟨rfl, rfl⟩

/-- Claim C10: `data_folder` is the canonical resolution of
`../data/sunspots_data` relative to the directory of the module file,
`data_file` is the canonical resolution of the fixed name `sunspots.csv`
inside that folder, and on a concrete installation path the two strings
come out as expected. -/
theorem init_resolved_paths (rp : String → String) (moduleFile : String) :
    (SunspotDataset.init rp moduleFile).data_folder =
      rp (joinPath (joinPath (dirname (rp moduleFile)) "../data")
        "sunspots_data") ∧
    (SunspotDataset.init rp moduleFile).data_file =
      rp (joinPath (SunspotDataset.init rp moduleFile).data_folder
        "sunspots.csv") ∧
    SunspotDataset.init id "/install/aix360/datasets/sunspots_dataset.py" =
      { data_folder := "/install/aix360/datasets/../data/sunspots_data"
        data_file := "/install/aix360/datasets/../data/sunspots_data/sunspots.csv" } :=
  ⟨rfl, rfl, by rfl⟩
